import Mathlib

/-!
Shallow embedding of the product-browsing front end:
- `src/src/app/component/Searchbar.tsx` (debounced search widget),
- `src/src/app/product/Product.tsx` (paginated product list),
- `src/src/app/product/route.ts` (proxy endpoint).

Components are React components whose state lives in `useState` hooks and
whose effects are network fetches; we embed each handler as a pure function
from the current state (together with an explicit description of the network
outcome) to the pair of the request it issues (if any) and the new state.
-/

namespace ProductApp

/-- Product record as used by the search widget (Searchbar.tsx `interface
Product`). Prices are JS numbers; the claims never compute with them, so we
model them as integers. -/
structure SearchProduct where
  id : Int
  title : String
  price : Int
  thumbnail : String
deriving Repr, DecidableEq

/-- The `useState` hooks of `SearchBar` (Searchbar.tsx). -/
structure SearchState where
  query : String
  results : List SearchProduct
  isLoading : Bool
  error : Option String
  isDropdownOpen : Bool
deriving Repr, DecidableEq

/-- Initial state of `SearchBar`: `useState('')`, `useState([])`,
`useState(false)`, `useState(null)`, `useState(false)`. -/
def initialSearchState : SearchState :=
  { query := "", results := [], isLoading := false, error := none,
    isDropdownOpen := false }

/-- JS `String.prototype.trim` modelled on the character list: strip leading
and trailing whitespace. -/
def jsTrim (s : String) : String :=
  String.mk (((s.data.dropWhile Char.isWhitespace).reverse.dropWhile
    Char.isWhitespace).reverse)

/-- Outcome of the search fetch as observed by `fetchSearchResults`:
the transport rejects, the response has a non-ok status, or the response is
ok and its JSON body may or may not contain a `products` array. -/
inductive SearchOutcome where
  | networkError
  | httpError (status : Nat)
  | success (products : Option (List SearchProduct))
deriving Repr, DecidableEq

/-- Whether the outcome takes the `catch` branch of `fetchSearchResults`
(the transport rejection, or the `throw` on `!response.ok`). -/
def SearchOutcome.isFailure : SearchOutcome → Bool
  | .networkError => true
  | .httpError _ => true
  | .success _ => false

/-- The remote search request
`https://dummyjson.com/products/search?q=<q>&limit=<limit>`
(the query is URI-encoded in the URL; we keep the raw term). -/
structure SearchRequest where
  q : String
  limit : Nat
deriving Repr, DecidableEq

/-- `fetchSearchResults` (Searchbar.tsx lines 30-57) as a state transformer.
Returns the remote request it issues (`none` when the early return for a
blank term is taken) and the state after all `set*` calls have landed.
The catch branch fires both for a transport rejection and for the `throw`
on `!response.ok`; it sets the error message and does not touch `results`.
On success, `setResults(data.products || [])` and `setIsDropdownOpen(true)`. -/
def fetchSearchResults (searchTerm : String) (outcome : SearchOutcome)
    (s : SearchState) : Option SearchRequest × SearchState :=
  if jsTrim searchTerm = "" then
    (none, { s with results := [] })
  else
    let s1 := { s with isLoading := true, error := none }
    let req : SearchRequest := { q := searchTerm, limit := 5 }
    match outcome with
    | .networkError =>
        (some req, { s1 with error := some "Error fetching results. Please try again.",
                             isLoading := false })
    | .httpError _ =>
        (some req, { s1 with error := some "Error fetching results. Please try again.",
                             isLoading := false })
    | .success products =>
        (some req, { s1 with results := products.getD [],
                             isDropdownOpen := true,
                             isLoading := false })

/-- Debounce delay of the memoized `debouncedFetch` (Searchbar.tsx line 63). -/
def debounceDelay : Nat := 1000

/-- Trailing-debounce semantics of `debounce` (Searchbar.tsx lines 21-27)
applied to a timeline of keystrokes `(time, value)` in increasing time
order: each keystroke clears the pending timer and schedules
`func(value)` at `time + delay`, so keystroke `i`'s scheduled call survives
iff it is the last keystroke or the next keystroke arrives no earlier than
`tᵢ + delay`. Returns, in order, the values the debounced function is
actually invoked with. -/
def debounceFirings : List (Nat × String) → List String
  | [] => []
  | [(_, v)] => [v]
  | (t1, v1) :: (t2, v2) :: rest =>
      if t2 < t1 + debounceDelay then debounceFirings ((t2, v2) :: rest)
      else v1 :: debounceFirings ((t2, v2) :: rest)

/-- The remote request (if any) issued by one invocation of
`fetchSearchResults` with value `v`: the early return for a blank term
issues none, otherwise the search fetch with `limit=5`. -/
def searchCallOf (v : String) : Option SearchRequest :=
  if jsTrim v = "" then none else some { q := v, limit := 5 }

/-- Remote search calls caused by a keystroke timeline (`handleInputChange`,
Searchbar.tsx lines 67-71, calls `debouncedFetch(value)` on each
keystroke; each firing runs `fetchSearchResults`). -/
def remoteSearchCalls (ks : List (Nat × String)) : List SearchRequest :=
  (debounceFirings ks).filterMap searchCallOf

/-! ## Product list view (Product.tsx) -/

/-- Product record of the list view (Product.tsx `interface Product`).
Numeric JS fields are modelled as integers; the claims never compute with
them. -/
structure ListProduct where
  id : Int
  title : String
  price : Int
  thumbnail : String
  description : String
  rating : Int
  stock : Int
  brand : String
  category : String
deriving Repr, DecidableEq

/-- URL query parameters, in order, as maintained by `URLSearchParams`. -/
abbrev UrlParams := List (String × String)

/-- `URLSearchParams.get`: value of the first entry with the given key. -/
def getParam (ps : UrlParams) (k : String) : Option String :=
  (ps.find? (fun p => p.1 = k)).map (fun p => p.2)

/-- `URLSearchParams.set`: replace the first entry with the given key in
place and drop any further entries with that key; append if absent. -/
def setParam : UrlParams → String → String → UrlParams
  | [], k, v => [(k, v)]
  | (k', v') :: rest, k, v =>
      if k' = k then (k, v) :: rest.filter (fun p => p.1 ≠ k)
      else (k', v') :: setParam rest k v

/-- The `useState` hooks of `ProductList` (Product.tsx) together with the
URL query string the component rewrites through `router.replace`. -/
structure ProductState where
  products : List ListProduct
  currentPage : Int
  totalPages : Nat
  loading : Bool
  error : Option String
  urlParams : UrlParams
deriving Repr, DecidableEq

/-- Initial state of `ProductList`: `useState([])`, `useState(1)`,
`useState(1)`, `useState(false)`, `useState(null)`; URL query initially
empty. -/
def initialProductState : ProductState :=
  { products := [], currentPage := 1, totalPages := 1, loading := false,
    error := none, urlParams := [] }

/-- `productsPerPage` constant (Product.tsx line 26). -/
def productsPerPage : Nat := 10

/-- The remote listing request
`https://dummyjson.com/products?limit=<limit>&skip=<skip>`. `skip` is an
integer because `(page - 1) * limit` can be negative in JS for `page < 1`. -/
structure ListRequest where
  limit : Int
  skip : Int
deriving Repr, DecidableEq

/-- Outcome of the listing fetch as observed by `fetchProducts`:
the transport rejects (carrying the rejection's `Error` message), the
response has a non-ok status (the code then throws
`Failed to fetch products: <status>`), or the response is ok with a JSON
body whose `products` array may be absent and whose `total` is a number.
A body whose JSON parse fails behaves like `networkError` with the parse
error's message. -/
inductive FetchOutcome where
  | networkError (msg : String)
  | httpError (status : Nat)
  | success (products : Option (List ListProduct)) (total : Nat)
deriving Repr, DecidableEq

/-- Whether the outcome takes the `catch` branch of `fetchProducts`. -/
def FetchOutcome.isFailure : FetchOutcome → Bool
  | .networkError _ => true
  | .httpError _ => true
  | .success _ _ => false

/-- `fetchProducts` (Product.tsx lines 29-56) as a state transformer.
Always issues the listing request with `limit = productsPerPage` and
`skip = (page - 1) * productsPerPage`. All failure points (`fetch`
rejection, the `throw` on `!response.ok`, `response.json()` rejection)
occur before any state mutation of the try block; the catch branch sets
only the error message (`err.message` for an `Error`). On success it sets
`products` to `data.products || []`, `totalPages` to
`Math.ceil(data.total / productsPerPage)`, and rewrites the URL `page`
parameter via `params.set('page', page)` and `router.replace` without a
navigation. `setLoading` brackets the whole body. -/
def fetchProducts (page : Int) (outcome : FetchOutcome) (s : ProductState) :
    ListRequest × ProductState :=
  let req : ListRequest :=
    { limit := (productsPerPage : Int), skip := (page - 1) * (productsPerPage : Int) }
  let s1 := { s with loading := true, error := none }
  match outcome with
  | .networkError msg =>
      (req, { s1 with error := some msg, loading := false })
  | .httpError status =>
      (req, { s1 with error := some ("Failed to fetch products: " ++ toString status),
                      loading := false })
  | .success products total =>
      (req, { s1 with products := products.getD [],
                      totalPages := (total + productsPerPage - 1) / productsPerPage,
                      urlParams := setParam s.urlParams "page" (toString page),
                      loading := false })

/-- `handleNext` (Product.tsx lines 65-71): advance only when
`currentPage < totalPages`; then set the page and fetch it. Returns the
request issued (`none` for the no-op) and the new state. -/
def handleNext (outcome : FetchOutcome) (s : ProductState) :
    Option ListRequest × ProductState :=
  if s.currentPage < (s.totalPages : Int) then
    let nextPage := s.currentPage + 1
    let r := fetchProducts nextPage outcome { s with currentPage := nextPage }
    (some r.1, r.2)
  else (none, s)

/-- `handlePrevious` (Product.tsx lines 72-78): retreat only when
`currentPage > 1`; then set the page and fetch it. -/
def handlePrevious (outcome : FetchOutcome) (s : ProductState) :
    Option ListRequest × ProductState :=
  if s.currentPage > 1 then
    let prevPage := s.currentPage - 1
    let r := fetchProducts prevPage outcome { s with currentPage := prevPage }
    (some r.1, r.2)
  else (none, s)

/-! ## Proxy endpoint (route.ts) -/

/-- Minimal JSON value model, enough to state that the proxy returns the
remote body unchanged and that the error payload has shape
`\x7b error: string \x7d`. -/
inductive Json where
  | null : Json
  | bool (b : Bool) : Json
  | num (n : Int) : Json
  | str (s : String) : Json
  | arr (elems : List Json) : Json
  | obj (fields : List (String × Json)) : Json

/-- What the forwarded `fetch` inside the route produces: the transport
rejects, or a response arrives with some status whose body either parses
as JSON (`some body`) or makes `res.json()` reject (`none`). -/
inductive RemoteResult where
  | reject : RemoteResult
  | respond (status : Nat) (body : Option Json) : RemoteResult

/-- An HTTP response produced by the route handler. -/
structure RouteResponse where
  status : Nat
  body : Json

/-- The generic error payload of the route's catch branch. -/
def routeErrorPayload : Json := .obj [("error", .str "Failed to fetch products")]

/-- `GET` (route.ts lines 4-22) as a function of the (numeric) `page` and
`limit` query parameters (`none` when absent; `searchParams.get(...) || d`
defaults them to 1 and 10) and the remote result. Returns the forwarded
request and the response: any rejection inside the try block (the `fetch`
itself or `res.json()`) yields the generic error payload with status 500;
otherwise `NextResponse.json(data)` returns the parsed body with the
default 200 status — the remote status code is never inspected. -/
def routeGET (page limit : Option Int) (remote : RemoteResult) :
    ListRequest × RouteResponse :=
  let p := page.getD 1
  let n := limit.getD 10
  let skip := (p - 1) * n
  let req : ListRequest := { limit := n, skip := skip }
  match remote with
  | .reject => (req, { status := 500, body := routeErrorPayload })
  | .respond _ none => (req, { status := 500, body := routeErrorPayload })
  | .respond _ (some body) => (req, { status := 200, body := body })

/-! ## Helper lemmas -/

/-- `fetchProducts` issues the same listing request whatever the outcome:
`limit = 10` and `skip = (page - 1) * 10`. -/
theorem fetchProducts_req (p : Int) (o : FetchOutcome) (s : ProductState) :
    (fetchProducts p o s).1 = { limit := 10, skip := (p - 1) * 10 } := by
  cases o <;> rfl

/-- `fetchProducts` never touches `currentPage` (only the handlers and the
mount effect call `setCurrentPage`). -/
theorem fetchProducts_currentPage (p : Int) (o : FetchOutcome) (s : ProductState) :
    (fetchProducts p o s).2.currentPage = s.currentPage := by
  cases o <;> rfl

/-- Reading a key back after `URLSearchParams.set` yields the value set. -/
theorem getParam_setParam (ps : UrlParams) (k v : String) :
    getParam (setParam ps k v) k = some v := by
  induction ps with
  | nil => simp [setParam, getParam]
  | cons head tail ih =>
      by_cases h : head.1 = k
      · simp [setParam, h, getParam]
      · simpa [setParam, h, getParam] using ih

/-- The kernel of the debounce argument: when every keystroke arrives
strictly within `debounceDelay` of its predecessor, only the last keystroke's
scheduled call survives. -/
theorem debounceFirings_of_chain (ks : List (Nat × String))
    (hchain : ks.Chain' (fun a b => b.1 < a.1 + debounceDelay)) :
    ∀ t v, ks.getLast? = some (t, v) → debounceFirings ks = [v] := by
  induction ks using debounceFirings.induct with
  | case1 => intro t v h; simp at h
  | case2 t0 v0 => intro t v h; simp at h; simp [debounceFirings, h.2]
  | case3 t1 v1 t2 v2 rest hlt ih =>
      intro t v h
      rw [List.chain'_cons] at hchain
      have h2 : ((t2, v2) :: rest).getLast? = some (t, v) := by
        simpa using h
      simp only [debounceFirings, if_pos hlt]
      exact ih hchain.2 t v h2
  | case4 t1 v1 t2 v2 rest hge ih =>
      intro t v h
      rw [List.chain'_cons] at hchain
      exact absurd hchain.1 hge

/-! ## Claims -/

/-- C6: after every successful page fetch, the URL query parameter `page`
is rewritten (via `params.set` and `router.replace`, no navigation) to the
number of the page that was fetched. -/
theorem url_page_tracks_fetched_page (p : Int) (products : Option (List ListProduct))
    (total : Nat) (s : ProductState) :
    getParam (fetchProducts p (.success products total) s).2.urlParams "page"
      = some (toString p) := by
  simp [fetchProducts, getParam_setParam]

/-- C7: a query whose trimmed value is empty (empty or whitespace-only)
issues no remote search call and sets the results list to empty, leaving
the rest of the widget state untouched. -/
theorem blank_query_clears_results (q : String) (o : SearchOutcome) (s : SearchState)
    (hq : jsTrim q = "") :
    fetchSearchResults q o s = (none, { s with results := [] }) := by
  simp [fetchSearchResults, hq]

/-- Witness for C7 at the whitespace-only query `"  "`. -/
theorem blank_query_clears_results_witness :
    jsTrim "  " = "" ∧
    fetchSearchResults "  " .networkError initialSearchState
      = (none, { initialSearchState with results := [] }) :=
  ⟨rfl, blank_query_clears_results "  " .networkError initialSearchState rfl⟩

/-- C8: the proxy forwards `limit = n` and `skip = (p - 1) * n` where `p`
and `n` are the `page` and `limit` parameters defaulted to 1 and 10, and on
a successful remote response it returns the parsed JSON body unchanged. -/
theorem proxy_forwards_and_returns_body (page limit : Option Int) (status : Nat)
    (body : Json) (hok : 200 ≤ status ∧ status < 300) :
    (routeGET page limit (.respond status (some body))).1
        = { limit := limit.getD 10, skip := (page.getD 1 - 1) * limit.getD 10 } ∧
    (routeGET page limit (.respond status (some body))).2.body = body :=
  ⟨rfl, rfl⟩

/-- Witness for C8 with both parameters absent and a 200 remote response. -/
theorem proxy_forwards_and_returns_body_witness :
    (routeGET none none (.respond 200 (some (.str "payload")))).1
        = { limit := 10, skip := 0 } ∧
    (routeGET none none (.respond 200 (some (.str "payload")))).2.body = .str "payload" :=
  proxy_forwards_and_returns_body none none 200 (.str "payload") ⟨by norm_num, by norm_num⟩

/-- C9: when a product-list fetch fails, only the error message and the
loading flag change: `products`, `totalPages`, `currentPage` and the URL
parameters keep their previous values. -/
theorem fetch_failure_frame (p : Int) (o : FetchOutcome) (s : ProductState)
    (hfail : o.isFailure = true) :
    (fetchProducts p o s).2.products = s.products ∧
    (fetchProducts p o s).2.totalPages = s.totalPages ∧
    (fetchProducts p o s).2.currentPage = s.currentPage ∧
    (fetchProducts p o s).2.urlParams = s.urlParams ∧
    (fetchProducts p o s).2.loading = false ∧
    (fetchProducts p o s).2.error.isSome = true := by
  cases o with
  | networkError msg => simp [fetchProducts]
  | httpError status => simp [fetchProducts]
  | success products total => simp [FetchOutcome.isFailure] at hfail

/-- Witness for C9 at a transport failure on page 3 from a populated state. -/
theorem fetch_failure_frame_witness :
    ((FetchOutcome.networkError "Failed to fetch").isFailure = true) ∧
    (fetchProducts 3 (.networkError "Failed to fetch") initialProductState).2.products
      = initialProductState.products ∧
    (fetchProducts 3 (.networkError "Failed to fetch") initialProductState).2.totalPages
      = initialProductState.totalPages := by
  refine ⟨rfl, ?_, ?_⟩
  · exact (fetch_failure_frame 3 (.networkError "Failed to fetch") initialProductState rfl).1
  · exact (fetch_failure_frame 3 (.networkError "Failed to fetch") initialProductState rfl).2.1

/-- C10: a successful response whose JSON body has no `products` field makes
the search widget and the product list store the empty list (`data.products
|| []`), never an undefined value. -/
theorem missing_products_field_yields_empty_list (term : String) (s : SearchState)
    (p : Int) (total : Nat) (s2 : ProductState) (hterm : jsTrim term ≠ "") :
    (fetchSearchResults term (.success none) s).2.results = [] ∧
    (fetchProducts p (.success none total) s2).2.products = [] := by
  constructor
  · simp [fetchSearchResults, hterm]
  · simp [fetchProducts]

/-- Witness for C10 at the query `"phone"`, page 1, total 95. -/
theorem missing_products_field_yields_empty_list_witness :
    jsTrim "phone" ≠ "" ∧
    (fetchSearchResults "phone" (.success none) initialSearchState).2.results = [] ∧
    (fetchProducts 1 (.success none 95) initialProductState).2.products = [] := by
  refine ⟨by decide, ?_⟩
  exact missing_products_field_yields_empty_list "phone" initialSearchState 1 95
    initialProductState (by decide)

/-- `Math.ceil(total / 10)` for a natural `total` agrees with the code's
value `(total + 10 - 1) / 10` in natural division. -/
theorem natCeilDiv_ten (total : Nat) :
    (((total + 10 - 1) / 10 : Nat) : ℤ) = ⌈(total : ℚ) / 10⌉ := by
  set z := (total + 10 - 1) / 10 with hz
  have h1 : 10 * z ≤ total + 9 := by omega
  have h2 : total ≤ 10 * z := by omega
  have key1 : (10 : ℚ) * z ≤ (total : ℚ) + 9 := by exact_mod_cast h1
  have key2 : (total : ℚ) ≤ 10 * z := by exact_mod_cast h2
  have hdiv : (total : ℚ) / 10 * 10 = total := by field_simp
  rw [eq_comm, Int.ceil_eq_iff]
  push_cast
  constructor
  · nlinarith [key1, hdiv]
  · nlinarith [key2, hdiv]

/-- C4: for every valid page `p` with `1 ≤ p ≤ totalPages`, the fetch for
page `p` requests `limit = 10` and `skip = (p - 1) * 10`; after a successful
response `totalPages = ⌈total / 10⌉`; in particular `total = 95` yields
`totalPages = 10` and page 10 yields `skip = 90`. -/
theorem page_fetch_parameters (p : Int) (s : ProductState) (o : FetchOutcome)
    (products : Option (List ListProduct)) (total : Nat)
    (hp1 : 1 ≤ p) (hp2 : p ≤ (s.totalPages : Int)) :
    (fetchProducts p o s).1 = { limit := 10, skip := (p - 1) * 10 } ∧
    (((fetchProducts p (.success products total) s).2.totalPages : ℤ)
        = ⌈(total : ℚ) / 10⌉) ∧
    (fetchProducts 10 o s).1.skip = 90 ∧
    (fetchProducts p (.success products 95) s).2.totalPages = 10 := by
  refine ⟨fetchProducts_req p o s, ?_, ?_, ?_⟩
  · have h : (fetchProducts p (.success products total) s).2.totalPages
        = (total + 10 - 1) / 10 := rfl
    rw [h]
    exact natCeilDiv_ten total
  · rw [fetchProducts_req]
    norm_num
  · rfl

/-- Witness for C4 at page 10 of a 10-page state with `total = 95`. -/
theorem page_fetch_parameters_witness :
    (fetchProducts 10 (.success none 95)
        { initialProductState with totalPages := 10 }).1
      = { limit := 10, skip := 90 } ∧
    (fetchProducts 10 (.success none 95)
        { initialProductState with totalPages := 10 }).2.totalPages = 10 := by
  have h := page_fetch_parameters 10 { initialProductState with totalPages := 10 }
    (.success none 95) none 95 (by norm_num) (by norm_num [initialProductState])
  refine ⟨?_, h.2.2.2⟩
  rw [h.1]
  norm_num

/-- C5: the pagination handlers preserve `1 ≤ currentPage ≤ totalPages`:
"Previous" at page 1 and "Next" at the last page change no state and issue
no fetch; otherwise the handler moves the page by exactly one and fetches
the new page. -/
theorem pagination_handlers_bounds (s : ProductState) (o : FetchOutcome)
    (h1 : 1 ≤ s.currentPage) (h2 : s.currentPage ≤ (s.totalPages : Int)) :
    (s.currentPage = 1 → handlePrevious o s = (none, s)) ∧
    (s.currentPage = (s.totalPages : Int) → handleNext o s = (none, s)) ∧
    (s.currentPage < (s.totalPages : Int) →
        (handleNext o s).1 = some { limit := 10, skip := s.currentPage * 10 } ∧
        (handleNext o s).2.currentPage = s.currentPage + 1) ∧
    (1 < s.currentPage →
        (handlePrevious o s).1 = some { limit := 10, skip := (s.currentPage - 2) * 10 } ∧
        (handlePrevious o s).2.currentPage = s.currentPage - 1) ∧
    (1 ≤ (handleNext o s).2.currentPage ∧
        (handleNext o s).2.currentPage ≤ (s.totalPages : Int)) ∧
    (1 ≤ (handlePrevious o s).2.currentPage ∧
        (handlePrevious o s).2.currentPage ≤ (s.totalPages : Int)) := by
  have hnextPage : ∀ hlt : s.currentPage < (s.totalPages : Int),
      (handleNext o s).2.currentPage = s.currentPage + 1 := by
    intro hlt
    simp only [handleNext, if_pos hlt]
    rw [fetchProducts_currentPage]
  have hprevPage : ∀ hgt : s.currentPage > 1,
      (handlePrevious o s).2.currentPage = s.currentPage - 1 := by
    intro hgt
    simp only [handlePrevious, if_pos hgt]
    rw [fetchProducts_currentPage]
  refine ⟨?_, ?_, ?_, ?_, ?_, ?_⟩
  · intro hcp
    have hngt : ¬ (s.currentPage > 1) := by omega
    simp [handlePrevious, hngt]
  · intro hcp
    have hnlt : ¬ (s.currentPage < (s.totalPages : Int)) := by omega
    simp [handleNext, hnlt]
  · intro hlt
    refine ⟨?_, hnextPage hlt⟩
    simp only [handleNext, if_pos hlt]
    rw [fetchProducts_req]
    have harith : s.currentPage + 1 - 1 = s.currentPage := by ring
    rw [harith]
  · intro hgt
    refine ⟨?_, hprevPage hgt⟩
    simp only [handlePrevious, if_pos hgt]
    rw [fetchProducts_req]
    have harith : s.currentPage - 1 - 1 = s.currentPage - 2 := by ring
    rw [harith]
  · by_cases hlt : s.currentPage < (s.totalPages : Int)
    · rw [hnextPage hlt]; omega
    · have hnone : handleNext o s = (none, s) := by simp [handleNext, hlt]
      rw [hnone]
      exact ⟨h1, h2⟩
  · by_cases hgt : s.currentPage > 1
    · rw [hprevPage hgt]; omega
    · have hnone : handlePrevious o s = (none, s) := by simp [handlePrevious, hgt]
      rw [hnone]
      exact ⟨h1, h2⟩

/-- Witness for C5 at page 2 of 5: "Next" moves to page 3. -/
theorem pagination_handlers_bounds_witness :
    (handleNext (.success none 95)
        { initialProductState with currentPage := 2, totalPages := 5 }).2.currentPage
      = 3 := by
  have h := pagination_handlers_bounds
    { initialProductState with currentPage := 2, totalPages := 5 }
    (.success none 95) (by norm_num [initialProductState])
    (by norm_num [initialProductState])
  exact (h.2.2.1 (by norm_num [initialProductState])).2

/-- C1 counterexample: the claim quantifies over non-empty queries, but the
single keystroke with value `" "` (a non-empty query, trivially within the
debounce window) causes zero remote search calls, not exactly one: the
blank-term early return of `fetchSearchResults` fires instead of the fetch. -/
theorem debounce_whitespace_query_no_call_cex :
    (" " : String) ≠ "" ∧
    List.Chain' (fun a b : Nat × String => b.1 < a.1 + debounceDelay) [(0, " ")] ∧
    remoteSearchCalls [(0, " ")] = [] := by
  refine ⟨by decide, by simp, rfl⟩

/-- C1 (amended): when every keystroke arrives strictly within 1000 ms of
its predecessor and the final query value is not empty or whitespace-only,
exactly one remote search call is issued and it carries the final query
value (each keystroke reschedules the pending lookup, cancelling the prior
one; a whitespace-only final value issues no call at all). -/
theorem debounced_search_single_call (ks : List (Nat × String)) (t : Nat) (v : String)
    (hchain : (ks ++ [(t, v)]).Chain' (fun a b => b.1 < a.1 + debounceDelay))
    (hv : jsTrim v ≠ "") :
    remoteSearchCalls (ks ++ [(t, v)]) = [{ q := v, limit := 5 }] := by
  have h := debounceFirings_of_chain (ks ++ [(t, v)]) hchain t v (by simp)
  simp [remoteSearchCalls, h, searchCallOf, hv]

/-- Witness for C1 (amended): three keystrokes 200 ms apart typing out
`"phone"` yield the single call `q = "phone"`. -/
theorem debounced_search_single_call_witness :
    remoteSearchCalls [(0, "p"), (200, "ph"), (400, "phone")]
      = [{ q := "phone", limit := 5 }] := by
  exact debounced_search_single_call [(0, "p"), (200, "ph")] 400 "phone"
    (by norm_num [List.chain'_cons, debounceDelay]) (by decide)

/-- Widget state in which results of an earlier successful lookup are shown. -/
def populatedSearchState : SearchState :=
  { initialSearchState with
      results := [{ id := 1, title := "iPhone 9", price := 549, thumbnail := "t" }],
      isDropdownOpen := true }

/-- C2 counterexample: a failed lookup from a state with previously shown
results sets the error message, but the results list is not cleared — the
catch branch of `fetchSearchResults` never calls `setResults`. -/
theorem search_failure_results_not_cleared_cex :
    (fetchSearchResults "phone" .networkError populatedSearchState).2.error
      = some "Error fetching results. Please try again." ∧
    (fetchSearchResults "phone" .networkError populatedSearchState).2.results ≠ [] := by
  exact ⟨rfl, by decide⟩

/-- C2 (amended): a failed lookup (network error or non-success status) sets
the user-visible error message and stops the loading indicator; the results
list keeps its previous value (the open dropdown renders the error message
in place of the results, so they are no longer displayed, but the list is
not cleared). -/
theorem search_failure_sets_error (term : String) (o : SearchOutcome) (s : SearchState)
    (hterm : jsTrim term ≠ "") (hfail : o.isFailure = true) :
    (fetchSearchResults term o s).2.error
      = some "Error fetching results. Please try again." ∧
    (fetchSearchResults term o s).2.results = s.results ∧
    (fetchSearchResults term o s).2.isLoading = false := by
  cases o with
  | networkError => simp [fetchSearchResults, hterm]
  | httpError status => simp [fetchSearchResults, hterm]
  | success products => simp [SearchOutcome.isFailure] at hfail

/-- Witness for C2 (amended) at a 500 remote status for the query `"phone"`. -/
theorem search_failure_sets_error_witness :
    (fetchSearchResults "phone" (.httpError 500) populatedSearchState).2.error
      = some "Error fetching results. Please try again." ∧
    (fetchSearchResults "phone" (.httpError 500) populatedSearchState).2.results
      = populatedSearchState.results :=
  let h := search_failure_sets_error "phone" (.httpError 500) populatedSearchState
    (by decide) rfl
  ⟨h.1, h.2.1⟩

/-- C3 counterexample: a remote 404 whose body parses as JSON is passed
through with the default 200 status — the route never inspects
`res.status`, so no generic error payload and no 500 status result. -/
theorem proxy_passthrough_on_error_status_cex :
    (routeGET none none
        (.respond 404 (some (.obj [("message", .str "not found")])))).2.status = 200 ∧
    (routeGET none none
        (.respond 404 (some (.obj [("message", .str "not found")])))).2.body
      = .obj [("message", .str "not found")] ∧
    (routeGET none none
        (.respond 404 (some (.obj [("message", .str "not found")])))).2.status ≠ 500 := by
  exact ⟨rfl, rfl, by decide⟩

/-- C3 (amended): the proxy returns the generic payload
`\x7b error: string \x7d` with status 500 exactly when the forwarded call
rejects in transport or its body fails to parse as JSON; any remote
response whose body parses as JSON — success or not — is returned unchanged
with the default success status. -/
theorem proxy_error_payload_on_transport_failure (page limit : Option Int)
    (remote : RemoteResult)
    (hfail : remote = .reject ∨ ∃ st, remote = .respond st none) :
    (routeGET page limit remote).2 = { status := 500, body := routeErrorPayload } ∧
    ∀ st body, (routeGET page limit (.respond st (some body))).2
        = { status := 200, body := body } := by
  refine ⟨?_, fun st body => rfl⟩
  rcases hfail with h | ⟨st, h⟩ <;> subst h <;> rfl

/-- Witness for C3 (amended) at a transport rejection with absent params. -/
theorem proxy_error_payload_on_transport_failure_witness :
    (routeGET none none .reject).2 = { status := 500, body := routeErrorPayload } :=
  (proxy_error_payload_on_transport_failure none none .reject (Or.inl rfl)).1

end ProductApp
